import Mathlib

/-!
Shallow embedding of the system-monitoring-suite core (the `SystemMonitor`
class). JS numbers that are always finite in the code paths we model are
embedded as rationals; a value that the code can make non-finite (NaN,
positive or negative Infinity — arising only from the unguarded division
in `getMemoryMetrics` when `total = 0`) is embedded as `JSNum`, a
four-valued type with the IEEE comparison and arithmetic behaviour of JS
numbers: `Infinity >= t` is true for every finite `t`, while every
comparison involving NaN is false.
-/

namespace SysMon

/-- Severity levels of an alert, ordered `warning < critical < emergency`. -/
inductive Severity
  | warning
  | critical
  | emergency
  deriving DecidableEq, Repr

/-- Health classification used by the analyzer and health check. -/
inductive Health
  | healthy
  | degraded
  | unhealthy
  deriving DecidableEq, Repr

/-- Trend direction returned by `calculateTrend`. -/
inductive Trend
  | increasing
  | decreasing
  | stable
  deriving DecidableEq, Repr

/-- Embedding of `Math.round` on finite JS numbers: nearest integer with
halves rounded toward positive infinity. -/
def jsRound (x : ℚ) : ℚ := ((⌊x + 1/2⌋ : ℤ) : ℚ)

/-- A JS number: a finite rational, positive Infinity, negative Infinity
or NaN. -/
inductive JSNum
  | fin (q : ℚ)
  | posInf
  | negInf
  | nan
  deriving DecidableEq, Repr

/-- Finiteness test on a JS number. -/
def JSNum.isFin : JSNum → Bool
  | .fin _ => true
  | _ => false

/-- Rational value of a finite JS number, `0` on the non-finite values
(used only under finiteness hypotheses). -/
def JSNum.toQ : JSNum → ℚ
  | .fin q => q
  | _ => 0

/-- JS addition: NaN poisons, opposite infinities give NaN, an infinity
otherwise dominates. -/
def JSNum.add : JSNum → JSNum → JSNum
  | .nan, _ => .nan
  | _, .nan => .nan
  | .posInf, .negInf => .nan
  | .negInf, .posInf => .nan
  | .posInf, _ => .posInf
  | _, .posInf => .posInf
  | .negInf, _ => .negInf
  | _, .negInf => .negInf
  | .fin a, .fin b => .fin (a + b)

/-- JS subtraction with the IEEE infinity and NaN rules. -/
def JSNum.sub : JSNum → JSNum → JSNum
  | .nan, _ => .nan
  | _, .nan => .nan
  | .posInf, .posInf => .nan
  | .negInf, .negInf => .nan
  | .posInf, _ => .posInf
  | .negInf, _ => .negInf
  | .fin _, .posInf => .negInf
  | .fin _, .negInf => .posInf
  | .fin a, .fin b => .fin (a - b)

/-- Embedding of `Math.abs` on JS numbers. -/
def JSNum.abs : JSNum → JSNum
  | .fin a => .fin |a|
  | .posInf => .posInf
  | .negInf => .posInf
  | .nan => .nan

/-- JS strict less-than: false on NaN, `Infinity` exceeds everything and
`-Infinity` is below everything. -/
def JSNum.lt : JSNum → JSNum → Bool
  | .nan, _ => false
  | _, .nan => false
  | .posInf, _ => false
  | .negInf, .negInf => false
  | .negInf, _ => true
  | .fin _, .posInf => true
  | .fin _, .negInf => false
  | .fin a, .fin b => decide (a < b)

/-- Embedding of `Math.max(0, x)`: NaN passes through, `-Infinity` is
clamped to the finite 0 and `Infinity` stays. -/
def JSNum.max0 : JSNum → JSNum
  | .fin a => .fin (max 0 a)
  | .posInf => .posInf
  | .negInf => .fin 0
  | .nan => .nan

/-- JS subtraction of a JS number from a finite constant, `c - x`. -/
def JSNum.subFrom (c : ℚ) : JSNum → JSNum
  | .fin a => .fin (c - a)
  | .posInf => .negInf
  | .negInf => .posInf
  | .nan => .nan

/-- Embedding of `Math.round` on JS numbers: non-finite values pass
through. -/
def JSNum.round : JSNum → JSNum
  | .fin a => .fin (jsRound a)
  | x => x

/-- JS division of a JS number by a length or literal count `n`: for
`n = 0` the sign rules of division by zero apply, otherwise a finite
value divides exactly and non-finite values pass through. -/
def JSNum.divNat (x : JSNum) (n : ℕ) : JSNum :=
  if n = 0 then
    match x with
    | .fin a => if 0 < a then .posInf else if a < 0 then .negInf else .nan
    | x => x
  else
    match x with
    | .fin a => .fin (a / (n : ℚ))
    | x => x

/-- String conversion of a JS number as used in the alert messages; the
rendering of the finite case keeps the simplified numeral form used
throughout this embedding. -/
def JSNum.render : JSNum → String
  | .fin q => toString q.num
  | .posInf => "Infinity"
  | .negInf => "-Infinity"
  | .nan => "NaN"

/-- Embedding of the JS comparison `v >= t` against a possibly undefined
threshold: an undefined threshold converts to NaN so the comparison is
false; `Infinity` meets every defined threshold, `-Infinity` and NaN
none. -/
def jsGE (v : JSNum) (t : Option ℚ) : Bool :=
  match t with
  | none => false
  | some tq =>
    match v with
    | .fin a => decide (tq ≤ a)
    | .posInf => true
    | .negInf => false
    | .nan => false

/-- Embedding of the JS expression `x || d` on numbers: `undefined` and `0`
are falsy and fall back to the default. -/
def jsOrNum (x : Option ℚ) (d : ℚ) : ℚ :=
  match x with
  | none => d
  | some v => if v = 0 then d else v

/-- Embedding of `values.reduce((sum, v) => sum + v, 0)` on JS numbers. -/
def jsSum (l : List JSNum) : JSNum := l.foldl JSNum.add (.fin 0)

/-- Arithmetic mean of a list of rationals, `0` for the empty list
(Lean division by zero); call sites guard emptiness where JS would not. -/
def mean (l : List ℚ) : ℚ := l.sum / l.length

/-- Embedding of `reduce(...)/values.length` on JS numbers, including the
division-by-zero behaviour of an empty list. -/
def jsMean (l : List JSNum) : JSNum := (jsSum l).divNat l.length

/-- Embedding of `array.slice(-n)` for `n > 0`: the last `n` elements. -/
def lastN (n : ℕ) (l : List α) : List α := l.drop (l.length - n)

/-- Threshold triple of one metric family; each level may be absent
(undefined) after an incomplete configuration merge. -/
structure Thresholds where
  warning : Option ℚ
  critical : Option ℚ
  emergency : Option ℚ
  deriving DecidableEq, Repr

/-- Per-family configuration: enable flag, declarative polling interval,
thresholds and retention in days. -/
structure FamilyConfig where
  enabled : Bool
  interval : Option ℚ
  thresholds : Thresholds
  retention : Option ℚ
  deriving DecidableEq, Repr

/-- Configuration of the four metric families. -/
structure MetricsConfig where
  cpu : FamilyConfig
  memory : FamilyConfig
  disk : FamilyConfig
  network : FamilyConfig
  deriving DecidableEq, Repr

/-- Alert-subsystem configuration; cooldown and rate-limit fields are
declared but unused by the evaluator, as in the source. -/
structure AlertsConfig where
  enabled : Bool
  cooldownPeriod : String
  maxAlertsPerHour : ℚ
  escalationEnabled : Bool
  deriving DecidableEq, Repr

/-- Merged monitor configuration (the `Required<SystemMonitorConfig>`
shape actually consumed by the class methods). -/
structure Config where
  interval : ℚ
  enabled : Bool
  metrics : MetricsConfig
  alerts : AlertsConfig
  deriving DecidableEq, Repr

/-- CPU part of a snapshot. -/
structure CpuMetrics where
  usage : ℚ
  cores : ℕ
  temperature : Option ℚ
  loadAverage : Option (List ℚ)
  deriving DecidableEq, Repr

/-- Swap part of the memory record (never populated by the source, which
always sets it to undefined). -/
structure SwapInfo where
  total : ℚ
  used : ℚ
  free : ℚ
  deriving DecidableEq, Repr

/-- Memory part of a snapshot. The usage field is non-finite exactly when
the source computed a non-finite number (division by a zero total). -/
structure MemoryMetrics where
  usage : JSNum
  total : ℚ
  used : ℚ
  free : ℚ
  available : ℚ
  swap : Option SwapInfo
  deriving DecidableEq, Repr

/-- Per-device disk record. -/
structure DeviceMetrics where
  name : String
  usage : ℚ
  total : ℚ
  used : ℚ
  free : ℚ
  deriving DecidableEq, Repr

/-- Disk part of a snapshot; the aggregate usage is guarded against a zero
total in the source, so it is always finite. -/
structure DiskMetrics where
  usage : ℚ
  total : ℚ
  used : ℚ
  free : ℚ
  devices : List DeviceMetrics
  deriving DecidableEq, Repr

/-- Per-interface network record. -/
structure InterfaceMetrics where
  name : String
  bytesReceived : ℚ
  bytesSent : ℚ
  packetsReceived : ℚ
  packetsSent : ℚ
  deriving DecidableEq, Repr

/-- Network part of a snapshot. -/
structure NetworkMetrics where
  interfaces : List InterfaceMetrics
  deriving DecidableEq, Repr

/-- One collected snapshot (`SystemMetrics` in the source). -/
structure SystemMetrics where
  timestamp : ℚ
  cpu : CpuMetrics
  memory : MemoryMetrics
  disk : DiskMetrics
  network : NetworkMetrics
  deriving DecidableEq, Repr

/-- An alert record. The random suffix of the source alert id is not
modelled; the deterministic prefix is kept. -/
structure Alert where
  id : String
  timestamp : ℚ
  severity : Severity
  metric : String
  value : JSNum
  threshold : Option ℚ
  message : String
  resolved : Bool
  deriving DecidableEq, Repr

/-- Result of a successful `si.currentLoad()` provider call. -/
structure CpuLoadData where
  currentLoad : ℚ
  cpus : List ℚ
  loadavg : Option (List ℚ)
  deriving DecidableEq, Repr

/-- Result of a successful `si.mem()` provider call. -/
structure MemData where
  total : ℚ
  used : ℚ
  free : ℚ
  available : ℚ
  deriving DecidableEq, Repr

/-- One filesystem entry from `si.fsSize()`. -/
structure FsEntry where
  mount : String
  size : ℚ
  used : ℚ
  available : ℚ
  deriving DecidableEq, Repr

/-- One interface entry from `si.networkStats()`; counter fields may be
absent. -/
structure NetStatEntry where
  iface : String
  rx_bytes : Option ℚ
  tx_bytes : Option ℚ
  rx_sec : Option ℚ
  tx_sec : Option ℚ
  deriving DecidableEq, Repr

/-- All provider responses consumed by one tick; `none` models a rejected
provider call. -/
structure Providers where
  cpuLoad : Option CpuLoadData
  cpuSpeed : Option ℚ
  cpuTemp : Option ℚ
  mem : Option MemData
  fsSize : Option (List FsEntry)
  netStats : Option (List NetStatEntry)
  deriving DecidableEq, Repr

/-- Zero-value CPU record returned when the family is disabled or its
provider fails. -/
def zeroCpu : CpuMetrics := { usage := 0, cores := 0, temperature := none, loadAverage := none }

/-- Zero-value memory record (the literal `{usage: 0, total: 0, used: 0,
free: 0, available: 0}` of the source). -/
def zeroMemory : MemoryMetrics :=
  { usage := .fin 0, total := 0, used := 0, free := 0, available := 0, swap := none }

/-- Zero-value disk record with an empty device list. -/
def zeroDisk : DiskMetrics := { usage := 0, total := 0, used := 0, free := 0, devices := [] }

/-- Zero-value network record with an empty interface list. -/
def zeroNetwork : NetworkMetrics := { interfaces := [] }

/-- Embedding of `getCpuMetrics`: disabled family yields the zero record;
a failure of the load or speed provider call is caught and yields the zero
record plus an error event; the temperature call has its own catch and a
zero reading is coerced to undefined by `|| undefined`. -/
def getCpuMetrics (fc : FamilyConfig) (load : Option CpuLoadData) (speed : Option ℚ)
    (temp : Option ℚ) : CpuMetrics × List String :=
  if fc.enabled = false then (zeroCpu, [])
  else
    match load, speed with
    | some l, some _ =>
      ({ usage := jsRound l.currentLoad,
         cores := l.cpus.length,
         temperature := match temp with
           | some m => if m = 0 then none else some m
           | none => none,
         loadAverage := some (l.loadavg.getD []) }, [])
    | _, _ => (zeroCpu, ["Failed to get CPU metrics"])

/-- Embedding of `getMemoryMetrics`. The usage expression
`Math.round((mem.used / mem.total) * 100)` is not guarded: when
`mem.total = 0` the JS division gives `Infinity` for a positive `used`,
`-Infinity` for a negative one and NaN for `used = 0`, and
multiplication by 100 and `Math.round` pass these through. -/
def getMemoryMetrics (fc : FamilyConfig) (mem : Option MemData) :
    MemoryMetrics × List String :=
  if fc.enabled = false then (zeroMemory, [])
  else
    match mem with
    | some m =>
      ({ usage :=
           if m.total = 0 then
             (if 0 < m.used then .posInf else if m.used < 0 then .negInf else .nan)
           else .fin (jsRound (m.used / m.total * 100)),
         total := m.total, used := m.used, free := m.free, available := m.available,
         swap := none }, [])
    | none => (zeroMemory, ["Failed to get memory metrics"])

/-- Embedding of `getDiskMetrics`: aggregate and per-device usages are
guarded by `size > 0` ternaries and fall back to `0`. -/
def getDiskMetrics (fc : FamilyConfig) (fsSize : Option (List FsEntry)) :
    DiskMetrics × List String :=
  if fc.enabled = false then (zeroDisk, [])
  else
    match fsSize with
    | some fs =>
      let totalSize := (fs.map (fun f => f.size)).sum
      let totalUsed := (fs.map (fun f => f.used)).sum
      let totalFree := (fs.map (fun f => f.available)).sum
      ({ usage := if 0 < totalSize then jsRound (totalUsed / totalSize * 100) else 0,
         total := totalSize, used := totalUsed, free := totalFree,
         devices := fs.map (fun f =>
           { name := f.mount,
             usage := if (0 : ℚ) < f.size then jsRound (f.used / f.size * 100) else 0,
             total := f.size, used := f.used, free := f.available }) }, [])
    | none => (zeroDisk, ["Failed to get disk metrics"])

/-- Embedding of `getNetworkMetrics`: pass-through of provider counters
with `|| 0` defaults; a provider failure yields the zero record plus an
error event. -/
def getNetworkMetrics (fc : FamilyConfig) (stats : Option (List NetStatEntry)) :
    NetworkMetrics × List String :=
  if fc.enabled = false then (zeroNetwork, [])
  else
    match stats with
    | some l =>
      ({ interfaces := l.map (fun i =>
           { name := i.iface,
             bytesReceived := jsOrNum i.rx_bytes 0,
             bytesSent := jsOrNum i.tx_bytes 0,
             packetsReceived := jsOrNum i.rx_sec 0,
             packetsSent := jsOrNum i.tx_sec 0 }) }, [])
    | none => (zeroNetwork, ["Failed to get network metrics"])

/-- Embedding of `createAlert`; the `Date.now()`-plus-random id suffix is
replaced by the deterministic timestamp part. -/
def createAlert (metric : String) (value : JSNum) (threshold : Option ℚ)
    (severity : Severity) (message : String) (now : ℚ) : Alert :=
  { id := metric ++ "-" ++ toString now.num, timestamp := now, severity := severity,
    metric := metric, value := value, threshold := threshold, message := message,
    resolved := false }

/-- One alert block of `checkAlerts`. The source repeats this block
verbatim for cpu, memory and disk; it is factored here with the family
name, enable flag, usage value, thresholds and message builders as
parameters. The usage value is a JS number: `Infinity` meets every
defined threshold (so a positive-unbounded memory usage emits an
emergency alert), while NaN and `-Infinity` meet none. -/
def familyAlertBlock (enabled : Bool) (metricName : String) (u : JSNum)
    (th : Thresholds) (msgE msgC msgW : JSNum → String) (now : ℚ) : List Alert :=
  if enabled then
    if jsGE u th.emergency then
      [createAlert metricName u th.emergency .emergency (msgE u) now]
    else if jsGE u th.critical then
      [createAlert metricName u th.critical .critical (msgC u) now]
    else if jsGE u th.warning then
      [createAlert metricName u th.warning .warning (msgW u) now]
    else []
  else []

/-- Embedding of `checkAlerts`: the cpu, memory and disk blocks of the
source in order; network has no block in the source. -/
def checkAlerts (cfg : Config) (m : SystemMetrics) (now : ℚ) : List Alert :=
  familyAlertBlock cfg.metrics.cpu.enabled "cpu" (.fin m.cpu.usage)
    cfg.metrics.cpu.thresholds
    (fun v => "CPU usage is critically high: " ++ JSNum.render v ++ "%")
    (fun v => "CPU usage is high: " ++ JSNum.render v ++ "%")
    (fun v => "CPU usage is elevated: " ++ JSNum.render v ++ "%") now
  ++ familyAlertBlock cfg.metrics.memory.enabled "memory" m.memory.usage
    cfg.metrics.memory.thresholds
    (fun v => "Memory usage is critically high: " ++ JSNum.render v ++ "%")
    (fun v => "Memory usage is high: " ++ JSNum.render v ++ "%")
    (fun v => "Memory usage is elevated: " ++ JSNum.render v ++ "%") now
  ++ familyAlertBlock cfg.metrics.disk.enabled "disk" (.fin m.disk.usage)
    cfg.metrics.disk.thresholds
    (fun v => "Disk usage is critically high: " ++ JSNum.render v ++ "%")
    (fun v => "Disk usage is high: " ++ JSNum.render v ++ "%")
    (fun v => "Disk usage is elevated: " ++ JSNum.render v ++ "%") now

/-- Threshold of a given severity level within a triple. -/
def thresholdOf (th : Thresholds) : Severity → Option ℚ
  | .emergency => th.emergency
  | .critical => th.critical
  | .warning => th.warning

/-- Specification-side notion used to state claim C2: the highest severity
whose threshold the usage value meets (inclusive JS comparison),
severities scanned from highest to lowest. -/
def highestSeverityMet (u : JSNum) (th : Thresholds) : Option Severity :=
  ([Severity.emergency, Severity.critical, Severity.warning].filter
    (fun sev => jsGE u (thresholdOf th sev))).head?

/-- Usage value of a named family within a snapshot, as read by
`checkAlerts`; a family without a usage percentage yields the NaN
sentinel, which meets no threshold. -/
def usageOf (m : SystemMetrics) : String → JSNum
  | "cpu" => .fin m.cpu.usage
  | "memory" => m.memory.usage
  | "disk" => .fin m.disk.usage
  | _ => .nan

/-- Enable flag of a named family in the configuration. -/
def familyEnabled (cfg : Config) : String → Bool
  | "cpu" => cfg.metrics.cpu.enabled
  | "memory" => cfg.metrics.memory.enabled
  | "disk" => cfg.metrics.disk.enabled
  | "network" => cfg.metrics.network.enabled
  | _ => false

/-- Threshold triple of a named family in the configuration. -/
def familyThresholds (cfg : Config) : String → Thresholds
  | "cpu" => cfg.metrics.cpu.thresholds
  | "memory" => cfg.metrics.memory.thresholds
  | "disk" => cfg.metrics.disk.thresholds
  | "network" => cfg.metrics.network.thresholds
  | _ => { warning := none, critical := none, emergency := none }

/-- Monitor state: the mutable fields of the `SystemMonitor` class.
The `hasInterval` flag models presence of the interval timer handle. -/
structure MonitorState where
  isRunning : Bool
  startTime : ℚ
  metrics : List SystemMetrics
  alerts : List Alert
  hasInterval : Bool
  lastNetworkStats : List NetStatEntry
  deriving DecidableEq, Repr

/-- Initial field values of a freshly constructed monitor. -/
def initialState : MonitorState :=
  { isRunning := false, startTime := 0, metrics := [], alerts := [],
    hasInterval := false, lastNetworkStats := [] }

/-- Events emitted by the monitor; the duplicate `metrics` event of the
source is represented once by `metricsCollected`. -/
inductive Event
  | started
  | stopped
  | metricsCollected (m : SystemMetrics)
  | alertEv (a : Alert)
  | errorEv (msg : String)
  | configUpdated
  deriving DecidableEq, Repr

/-- Milliseconds in one day, `24 * 60 * 60 * 1000`. -/
def msPerDay : ℚ := 24 * 60 * 60 * 1000

/-- Embedding of the `maxRetention` computation of `cleanupOldMetrics`:
`Math.max` of the four per-family retentions, each defaulted by `|| 7`. -/
def maxRetention (cfg : Config) : ℚ :=
  max (max (jsOrNum cfg.metrics.cpu.retention 7) (jsOrNum cfg.metrics.memory.retention 7))
      (max (jsOrNum cfg.metrics.disk.retention 7) (jsOrNum cfg.metrics.network.retention 7))

/-- Embedding of `cleanupOldMetrics`: keeps snapshots with
`timestamp > now - maxRetention days` and alerts with
`timestamp > now - 30 days`. -/
def cleanupOldMetrics (cfg : Config) (now : ℚ) (metrics : List SystemMetrics)
    (alerts : List Alert) : List SystemMetrics × List Alert :=
  let cutoffTime := now - maxRetention cfg * msPerDay
  let alertCutoffTime := now - 30 * msPerDay
  (metrics.filter (fun m => decide (cutoffTime < m.timestamp)),
   alerts.filter (fun a => decide (alertCutoffTime < a.timestamp)))

/-- Embedding of `getMetrics`: all snapshots when no range is given, else
the filter by `from <= timestamp <= to` (both inclusive). -/
def getMetrics (s : MonitorState) (timeRange : Option (ℚ × ℚ)) : List SystemMetrics :=
  match timeRange with
  | none => s.metrics
  | some r => s.metrics.filter (fun m => decide (r.1 ≤ m.timestamp ∧ m.timestamp ≤ r.2))

/-- Embedding of `calculateOverallHealth` over the last five snapshots;
the memory average is a JS number, so an `Infinity` average meets the 95
and 85 thresholds while NaN and `-Infinity` meet none. -/
def calculateOverallHealth (metrics : List SystemMetrics) : Health :=
  let recentMetrics := lastN 5 metrics
  if recentMetrics.isEmpty then .healthy
  else
    let avgCpu := mean (recentMetrics.map (fun m => m.cpu.usage))
    let avgMemory := jsMean (recentMetrics.map (fun m => m.memory.usage))
    let avgDisk := mean (recentMetrics.map (fun m => m.disk.usage))
    if 90 ≤ avgCpu ∨ jsGE avgMemory (some 95) = true ∨ 95 ≤ avgDisk then .unhealthy
    else if 80 ≤ avgCpu ∨ jsGE avgMemory (some 85) = true ∨ 85 ≤ avgDisk then .degraded
    else .healthy

/-- Embedding of `calculateHealthScore` with JS number arithmetic for the
memory family: `Math.max(0, 100 - Infinity)` is the finite 0, so an
`Infinity` memory average still yields a finite score, while a NaN
average poisons the score to NaN. -/
def calculateHealthScore (metrics : List SystemMetrics) : JSNum :=
  let recentMetrics := lastN 5 metrics
  if recentMetrics.isEmpty then .fin 100
  else
    let avgCpu := mean (recentMetrics.map (fun m => m.cpu.usage))
    let avgMemory := jsMean (recentMetrics.map (fun m => m.memory.usage))
    let avgDisk := mean (recentMetrics.map (fun m => m.disk.usage))
    let cpuScore := max 0 (100 - avgCpu)
    let memoryScore := (JSNum.subFrom 100 avgMemory).max0
    let diskScore := max 0 (100 - avgDisk)
    ((((JSNum.fin cpuScore).add memoryScore).add (.fin diskScore)).divNat 3).round

/-- Embedding of `identifyKeyIssues`. -/
def identifyKeyIssues (metrics : List SystemMetrics) : List String :=
  let recentMetrics := lastN 5 metrics
  if recentMetrics.isEmpty then []
  else
    let avgCpu := mean (recentMetrics.map (fun m => m.cpu.usage))
    let avgMemory := jsMean (recentMetrics.map (fun m => m.memory.usage))
    let avgDisk := mean (recentMetrics.map (fun m => m.disk.usage))
    (if 80 ≤ avgCpu then ["High CPU usage detected"] else [])
    ++ (if jsGE avgMemory (some 85) then ["High memory usage detected"] else [])
    ++ (if 85 ≤ avgDisk then ["High disk usage detected"] else [])

/-- Embedding of `generateRecommendations`. -/
def generateRecommendations (metrics : List SystemMetrics) : List String :=
  let recentMetrics := lastN 5 metrics
  if recentMetrics.isEmpty then []
  else
    let avgCpu := mean (recentMetrics.map (fun m => m.cpu.usage))
    let avgMemory := jsMean (recentMetrics.map (fun m => m.memory.usage))
    let avgDisk := mean (recentMetrics.map (fun m => m.disk.usage))
    (if 80 ≤ avgCpu then ["Consider optimizing CPU-intensive processes"] else [])
    ++ (if jsGE avgMemory (some 85) then
          ["Consider increasing memory or optimizing memory usage"] else [])
    ++ (if 85 ≤ avgDisk then
          ["Consider cleaning up disk space or expanding storage"] else [])

/-- Embedding of `calculateTrend` over JS number lists: the half averages,
the difference, `Math.abs(diff) < 5` and `diff > 0` all follow the JS
number rules, so an `Infinity` difference yields `increasing`, a
`-Infinity` or NaN difference falls through to `decreasing`. -/
def calculateTrend (values : List JSNum) : Trend :=
  if values.length < 2 then .stable
  else
    let firstHalf := values.take (values.length / 2)
    let secondHalf := values.drop (values.length / 2)
    let firstAvg := jsMean firstHalf
    let secondAvg := jsMean secondHalf
    let diff := secondAvg.sub firstAvg
    if diff.abs.lt (.fin 5) then .stable
    else if (JSNum.fin 0).lt diff then .increasing
    else .decreasing

/-- Analysis summary sub-record. -/
structure AnalysisSummary where
  overallHealth : Health
  score : JSNum
  keyIssues : List String
  recommendations : List String
  deriving DecidableEq, Repr

/-- Trend directions of the three usage families. -/
structure AnalysisTrends where
  cpu : Trend
  memory : Trend
  disk : Trend
  deriving DecidableEq, Repr

/-- Averages of the three usage families over the ten-snapshot window. -/
structure AnalysisAverages where
  cpu : ℚ
  memory : JSNum
  disk : ℚ
  deriving DecidableEq, Repr

/-- Result record of `getAnalysis`. -/
structure Analysis where
  summary : AnalysisSummary
  trends : AnalysisTrends
  averages : AnalysisAverages
  deriving DecidableEq, Repr

/-- Embedding of `getAnalysis`: `none` on an empty store, otherwise the
summary over the five-snapshot window and trends and averages over the
ten-snapshot window. -/
def getAnalysis (metrics : List SystemMetrics) : Option Analysis :=
  if metrics.isEmpty then none
  else
    let recentMetrics := lastN 10 metrics
    let cpuValues := recentMetrics.map (fun m => m.cpu.usage)
    let memoryValues := recentMetrics.map (fun m => m.memory.usage)
    let diskValues := recentMetrics.map (fun m => m.disk.usage)
    some
      { summary :=
          { overallHealth := calculateOverallHealth metrics,
            score := calculateHealthScore metrics,
            keyIssues := identifyKeyIssues metrics,
            recommendations := generateRecommendations metrics },
        trends :=
          { cpu := calculateTrend (cpuValues.map .fin),
            memory := calculateTrend memoryValues,
            disk := calculateTrend (diskValues.map .fin) },
        averages :=
          { cpu := mean cpuValues,
            memory := jsMean memoryValues,
            disk := mean diskValues } }

/-- Components sub-record of a health check result. -/
structure HealthComponents where
  systemMonitor : Health
  cpu : Health
  memory : Health
  disk : Health
  network : Health
  deriving DecidableEq, Repr

/-- Counters sub-record of a health check result. -/
structure HealthMetricsInfo where
  uptime : ℚ
  metricsCollected : ℕ
  alertsGenerated : ℕ
  lastMetricTime : Option ℚ
  deriving DecidableEq, Repr

/-- Result record of `healthCheck`. -/
structure HealthStatus where
  status : Health
  components : HealthComponents
  metrics : HealthMetricsInfo
  timestamp : ℚ
  deriving DecidableEq, Repr

/-- Embedding of `healthCheck`: component fields default to healthy, the
liveness component reflects the running flag, and the overall status is
derived from the components only when a last snapshot exists. -/
def healthCheck (s : MonitorState) (now : ℚ) : HealthStatus :=
  let lastMetric := (lastN 1 s.metrics).head?
  let baseComponents : HealthComponents :=
    { systemMonitor := if s.isRunning then .healthy else .unhealthy,
      cpu := .healthy, memory := .healthy, disk := .healthy, network := .healthy }
  let info : HealthMetricsInfo :=
    { uptime := if s.isRunning then now - s.startTime else 0,
      metricsCollected := s.metrics.length,
      alertsGenerated := s.alerts.length,
      lastMetricTime := lastMetric.map (fun m => m.timestamp) }
  match lastMetric with
  | none =>
    { status := .healthy, components := baseComponents, metrics := info, timestamp := now }
  | some lm =>
    let cpuH : Health :=
      if 90 ≤ lm.cpu.usage then .unhealthy
      else if 80 ≤ lm.cpu.usage then .degraded else .healthy
    let memH : Health :=
      if jsGE lm.memory.usage (some 95) then .unhealthy
      else if jsGE lm.memory.usage (some 85) then .degraded else .healthy
    let dskH : Health :=
      if 95 ≤ lm.disk.usage then .unhealthy
      else if 85 ≤ lm.disk.usage then .degraded else .healthy
    let comps := { baseComponents with cpu := cpuH, memory := memH, disk := dskH }
    let componentList := [comps.systemMonitor, comps.cpu, comps.memory, comps.disk, comps.network]
    let st : Health :=
      if componentList.contains .unhealthy then .unhealthy
      else if componentList.contains .degraded then .degraded
      else .healthy
    { status := st, components := comps, metrics := info, timestamp := now }

/-- Embedding of `start`: a no-op when already running; otherwise records
the start time, primes the baseline network counters (a priming failure
falls back to the empty list), installs the interval timer and emits the
started event. -/
def start (s : MonitorState) (cfg : Config) (netStats : Option (List NetStatEntry))
    (now : ℚ) : MonitorState × List Event :=
  if s.isRunning then (s, [])
  else
    ({ s with
        isRunning := true
        startTime := now
        lastNetworkStats :=
          if cfg.metrics.network.enabled then netStats.getD [] else s.lastNetworkStats
        hasInterval := true }, [.started])

/-- Embedding of `stop`: a no-op when not running; otherwise clears the
running flag and the interval timer and emits the stopped event. -/
def stop (s : MonitorState) : MonitorState × List Event :=
  if !s.isRunning then (s, [])
  else ({ s with isRunning := false, hasInterval := false }, [.stopped])

/-- Embedding of one `collectMetrics` tick: skipped when not running;
otherwise the four family records are collected (each falling back per its
own catch), the snapshot is appended, eviction runs, alerts are evaluated
when the alert subsystem is enabled, and the snapshot plus alerts plus
per-family errors are surfaced as events. -/
def collectMetrics (s : MonitorState) (cfg : Config) (p : Providers) (now : ℚ) :
    MonitorState × List Event :=
  if !s.isRunning then (s, [])
  else
    let cpuR := getCpuMetrics cfg.metrics.cpu p.cpuLoad p.cpuSpeed p.cpuTemp
    let memR := getMemoryMetrics cfg.metrics.memory p.mem
    let dskR := getDiskMetrics cfg.metrics.disk p.fsSize
    let netR := getNetworkMetrics cfg.metrics.network p.netStats
    let snap : SystemMetrics :=
      { timestamp := now, cpu := cpuR.1, memory := memR.1, disk := dskR.1, network := netR.1 }
    let cleaned := cleanupOldMetrics cfg now (s.metrics ++ [snap]) s.alerts
    let newAlerts := if cfg.alerts.enabled then checkAlerts cfg snap now else []
    let lastNet :=
      if cfg.metrics.network.enabled then
        match p.netStats with
        | some l => l
        | none => s.lastNetworkStats
      else s.lastNetworkStats
    ({ s with
        metrics := cleaned.1
        alerts := cleaned.2 ++ newAlerts
        lastNetworkStats := lastNet },
     (cpuR.2 ++ memR.2 ++ dskR.2 ++ netR.2).map Event.errorEv
       ++ newAlerts.map Event.alertEv ++ [Event.metricsCollected snap])

/-- Default cpu family configuration from `mergeDefaultConfig`. -/
def defaultCpuConfig : FamilyConfig :=
  { enabled := true, interval := some 5000,
    thresholds := { warning := some 70, critical := some 85, emergency := some 95 },
    retention := some 7 }

/-- Default memory family configuration from `mergeDefaultConfig`. -/
def defaultMemoryConfig : FamilyConfig :=
  { enabled := true, interval := some 5000,
    thresholds := { warning := some 80, critical := some 90, emergency := some 95 },
    retention := some 7 }

/-- Default disk family configuration from `mergeDefaultConfig`. -/
def defaultDiskConfig : FamilyConfig :=
  { enabled := true, interval := some 10000,
    thresholds := { warning := some 80, critical := some 90, emergency := some 95 },
    retention := some 7 }

/-- Default network family configuration from `mergeDefaultConfig`. -/
def defaultNetworkConfig : FamilyConfig :=
  { enabled := true, interval := some 5000,
    thresholds := { warning := some 1000, critical := some 2000, emergency := some 5000 },
    retention := some 7 }

/-- The full default configuration from `mergeDefaultConfig`. -/
def defaultConfig : Config :=
  { interval := 5000, enabled := true,
    metrics :=
      { cpu := defaultCpuConfig, memory := defaultMemoryConfig,
        disk := defaultDiskConfig, network := defaultNetworkConfig },
    alerts :=
      { enabled := true, cooldownPeriod := "5m", maxAlertsPerHour := 20,
        escalationEnabled := true } }

/-- A configuration reachable through `updateConfig` in which every family
has retention value zero; the `|| 7` fallback then applies. -/
def zeroRetentionConfig : Config :=
  { defaultConfig with
      metrics :=
        { cpu := { defaultCpuConfig with retention := some 0 }
          memory := { defaultMemoryConfig with retention := some 0 }
          disk := { defaultDiskConfig with retention := some 0 }
          network := { defaultNetworkConfig with retention := some 0 } } }

/-- Simple snapshot builder used in concrete instances. -/
def snapSimple (ts : ℚ) (cpuU : ℚ) (memU : JSNum) (dskU : ℚ) : SystemMetrics :=
  { timestamp := ts
    cpu := { usage := cpuU, cores := 4, temperature := none, loadAverage := none }
    memory := { usage := memU, total := 100, used := 50, free := 50, available := 50, swap := none }
    disk := { usage := dskU, total := 100, used := 50, free := 50, devices := [] }
    network := { interfaces := [] } }

end SysMon

namespace SysMon

/-! Shared lemmas about the embedded operations. -/

theorem jsRound_nonneg {x : ℚ} (h : 0 ≤ x) : 0 ≤ jsRound x := by
  unfold jsRound
  have h1 : (0:ℤ) ≤ ⌊x + 1/2⌋ := Int.floor_nonneg.mpr (by linarith)
  exact_mod_cast h1

theorem jsRound_le_hundred {x : ℚ} (h : x ≤ 100) : jsRound x ≤ 100 := by
  unfold jsRound
  have h1 : ⌊x + 1/2⌋ < (101:ℤ) := Int.floor_lt.mpr (by push_cast; linarith)
  have h2 : ⌊x + 1/2⌋ ≤ (100:ℤ) := by omega
  exact_mod_cast h2

theorem ratioRound_bounds {used total : ℚ} (h0 : 0 ≤ used) (h1 : used ≤ total)
    (h2 : 0 < total) :
    0 ≤ jsRound (used / total * 100) ∧ jsRound (used / total * 100) ≤ 100 := by
  have hr0 : 0 ≤ used / total := div_nonneg h0 (le_of_lt h2)
  have hr1 : used / total ≤ 1 := (div_le_one h2).mpr h1
  exact ⟨jsRound_nonneg (by nlinarith), jsRound_le_hundred (by nlinarith)⟩

theorem mean_nonneg {l : List ℚ} (h : ∀ x ∈ l, 0 ≤ x) : 0 ≤ mean l := by
  unfold mean
  exact div_nonneg (List.sum_nonneg h) (by positivity)

theorem jsFoldl_of_fin {l : List JSNum} (h : ∀ x ∈ l, x.isFin = true) :
    ∀ acc : ℚ, l.foldl JSNum.add (.fin acc) = .fin (acc + (l.map JSNum.toQ).sum) := by
  induction l with
  | nil => intro acc; simp
  | cons x xs ih =>
    intro acc
    have hx : x.isFin = true := h x (by simp)
    cases x with
    | fin q =>
      rw [List.foldl_cons]
      rw [show JSNum.add (.fin acc) (.fin q) = .fin (acc + q) from rfl]
      rw [ih (fun y hy => h y (by simp [hy]))]
      simp [JSNum.toQ, add_assoc]
    | posInf => simp [JSNum.isFin] at hx
    | negInf => simp [JSNum.isFin] at hx
    | nan => simp [JSNum.isFin] at hx

theorem jsSum_of_fin {l : List JSNum} (h : ∀ x ∈ l, x.isFin = true) :
    jsSum l = .fin ((l.map JSNum.toQ).sum) := by
  unfold jsSum
  rw [jsFoldl_of_fin h]
  simp

theorem jsMean_of_fin {l : List JSNum} (h : ∀ x ∈ l, x.isFin = true)
    (hne : ¬(l = [])) : jsMean l = .fin (mean (l.map JSNum.toQ)) := by
  have hlen : ¬(l.length = 0) := by simpa [List.length_eq_zero] using hne
  simp [jsMean, jsSum_of_fin h, JSNum.divNat, hlen, mean]

theorem jsMean_map_fin (l : List ℚ) (hne : ¬(l = [])) :
    jsMean (l.map .fin) = .fin (mean l) := by
  have h : ∀ x ∈ l.map JSNum.fin, x.isFin = true := by
    intro x hx
    obtain ⟨q, _, rfl⟩ := List.mem_map.mp hx
    rfl
  rw [jsMean_of_fin h (by simpa using hne)]
  simp only [List.map_map]
  rw [show (JSNum.toQ ∘ JSNum.fin) = id from rfl, List.map_id]

theorem mem_lastN {l : List α} {n : ℕ} {x : α} (h : x ∈ lastN n l) : x ∈ l :=
  List.drop_subset _ _ h

theorem lastN_ne_nil {l : List α} (h : l ≠ []) {n : ℕ} (hn : 0 < n) :
    lastN n l ≠ [] := by
  unfold lastN
  intro hc
  have h1 : l.length ≤ l.length - n := by
    simpa using List.drop_eq_nil_iff.mp hc
  have h2 : 0 < l.length := List.length_pos.mpr h
  omega

/-- Claim C3: `getMetrics` with no range returns all retained snapshots in
stored order, and with a range returns exactly the subsequence whose
timestamp lies in the inclusive interval, preserving stored order. -/
theorem getMetrics_range_spec (s : MonitorState) (r : ℚ × ℚ) :
    getMetrics s none = s.metrics
    ∧ (getMetrics s (some r)).Sublist s.metrics
    ∧ ∀ m, m ∈ getMetrics s (some r) ↔
        (m ∈ s.metrics ∧ r.1 ≤ m.timestamp ∧ m.timestamp ≤ r.2) := by
  refine ⟨rfl, List.filter_sublist _, fun m => ?_⟩
  simp [getMetrics, List.mem_filter, and_assoc]

/-- Claim C8: start while running and stop while stopped are no-ops
leaving the state unchanged and emitting nothing, and the lifecycle only
ever occupies the two states given by the running flag. -/
theorem startStop_lifecycle_spec (s : MonitorState) (cfg : Config)
    (net : Option (List NetStatEntry)) (now : ℚ) :
    (s.isRunning = true → start s cfg net now = (s, []))
    ∧ (s.isRunning = false → stop s = (s, []))
    ∧ (start s cfg net now).1.isRunning = true
    ∧ (stop s).1.isRunning = false := by
  refine ⟨fun h => by simp [start, h], fun h => by simp [stop, h], ?_, ?_⟩
  · by_cases h : s.isRunning <;> simp [start, h]
  · by_cases h : s.isRunning <;> simp [stop, h]

/-- Witness for claim C8 at concrete states. -/
theorem startStop_lifecycle_witness :
    start { initialState with isRunning := true } defaultConfig none 5
      = ({ initialState with isRunning := true }, [])
    ∧ stop initialState = (initialState, []) :=
  ⟨(startStop_lifecycle_spec { initialState with isRunning := true }
      defaultConfig none 5).1 (by decide),
   (startStop_lifecycle_spec initialState defaultConfig none 5).2.1 (by decide)⟩

/-- Claim C9: a health check before any start reports overall healthy
while the systemMonitor component is unhealthy and the four family
components are healthy. -/
theorem healthCheck_beforeStart_spec (s : MonitorState) (now : ℚ)
    (h1 : s.metrics = []) (h2 : s.isRunning = false) :
    (healthCheck s now).status = .healthy
    ∧ (healthCheck s now).components.systemMonitor = .unhealthy
    ∧ (healthCheck s now).components.cpu = .healthy
    ∧ (healthCheck s now).components.memory = .healthy
    ∧ (healthCheck s now).components.disk = .healthy
    ∧ (healthCheck s now).components.network = .healthy := by
  simp [healthCheck, h1, h2, lastN]

theorem hsm_of_em {u : JSNum} {th : Thresholds}
    (hE : jsGE u th.emergency = true) :
    highestSeverityMet u th = some .emergency := by
  simp [highestSeverityMet, thresholdOf, hE, List.filter]

theorem hsm_of_crit {u : JSNum} {th : Thresholds}
    (hE : jsGE u th.emergency = false) (hC : jsGE u th.critical = true) :
    highestSeverityMet u th = some .critical := by
  simp [highestSeverityMet, thresholdOf, hE, hC, List.filter]

theorem hsm_of_warn {u : JSNum} {th : Thresholds}
    (hE : jsGE u th.emergency = false) (hC : jsGE u th.critical = false)
    (hW : jsGE u th.warning = true) :
    highestSeverityMet u th = some .warning := by
  simp [highestSeverityMet, thresholdOf, hE, hC, hW, List.filter]

theorem hsm_none_iff {u : JSNum} {th : Thresholds} :
    highestSeverityMet u th = none ↔
      (jsGE u th.emergency = false ∧ jsGE u th.critical = false
        ∧ jsGE u th.warning = false) := by
  constructor
  · intro h
    by_cases hE : jsGE u th.emergency = true
    · rw [hsm_of_em hE] at h; cases h
    · by_cases hC : jsGE u th.critical = true
      · rw [hsm_of_crit (by simpa using hE) hC] at h; cases h
      · by_cases hW : jsGE u th.warning = true
        · rw [hsm_of_warn (by simpa using hE) (by simpa using hC) hW] at h
          cases h
        · exact ⟨by simpa using hE, by simpa using hC, by simpa using hW⟩
  · rintro ⟨hE, hC, hW⟩
    simp [highestSeverityMet, thresholdOf, hE, hC, hW, List.filter]

theorem familyAlertBlock_mem {e : Bool} {n : String} {u : JSNum}
    {th : Thresholds} {mE mC mW : JSNum → String} {now : ℚ} {a : Alert}
    (ha : a ∈ familyAlertBlock e n u th mE mC mW now) :
    a.metric = n ∧ e = true ∧ highestSeverityMet u th = some a.severity := by
  unfold familyAlertBlock at ha
  cases e with
  | false => simp at ha
  | true =>
    simp only [if_true] at ha
    by_cases hE : jsGE u th.emergency = true
    · simp only [hE, if_true] at ha
      simp at ha
      subst ha
      exact ⟨rfl, rfl, hsm_of_em hE⟩
    · have hE2 : jsGE u th.emergency = false := by simpa using hE
      simp only [hE2, Bool.false_eq_true, if_false] at ha
      by_cases hC : jsGE u th.critical = true
      · simp only [hC, if_true] at ha
        simp at ha
        subst ha
        exact ⟨rfl, rfl, hsm_of_crit hE2 hC⟩
      · have hC2 : jsGE u th.critical = false := by simpa using hC
        simp only [hC2, Bool.false_eq_true, if_false] at ha
        by_cases hW : jsGE u th.warning = true
        · simp only [hW, if_true] at ha
          simp at ha
          subst ha
          exact ⟨rfl, rfl, hsm_of_warn hE2 hC2 hW⟩
        · have hW2 : jsGE u th.warning = false := by simpa using hW
          simp [hW2] at ha

theorem familyAlertBlock_len (e : Bool) (n : String) (u : JSNum)
    (th : Thresholds) (mE mC mW : JSNum → String) (now : ℚ) :
    (familyAlertBlock e n u th mE mC mW now).length ≤ 1 := by
  unfold familyAlertBlock
  cases e with
  | false => simp
  | true =>
    by_cases hE : jsGE u th.emergency = true
    · simp [hE]
    · by_cases hC : jsGE u th.critical = true
      · simp [hE, hC]
      · by_cases hW : jsGE u th.warning = true
        · simp [hE, hC, hW]
        · simp [hE, hC, hW]

theorem filter_metric_ne {l : List Alert} {n fam : String}
    (hl : ∀ a ∈ l, a.metric = n) (hne : ¬(n = fam)) :
    l.filter (fun a => decide (a.metric = fam)) = [] := by
  rw [List.filter_eq_nil_iff]
  intro a ha
  simp only [decide_eq_true_eq]
  intro h
  exact hne ((hl a ha) ▸ h)

theorem three_blocks_len {fam n1 n2 n3 : String} {B1 B2 B3 : List Alert}
    (h1 : ∀ a ∈ B1, a.metric = n1) (h2 : ∀ a ∈ B2, a.metric = n2)
    (h3 : ∀ a ∈ B3, a.metric = n3)
    (l1 : B1.length ≤ 1) (l2 : B2.length ≤ 1) (l3 : B3.length ≤ 1)
    (d12 : ¬(n1 = n2)) (d13 : ¬(n1 = n3)) (d23 : ¬(n2 = n3)) :
    ((B1 ++ B2 ++ B3).filter (fun a => decide (a.metric = fam))).length ≤ 1 := by
  rw [List.filter_append, List.filter_append, List.length_append,
    List.length_append]
  by_cases hc1 : n1 = fam
  · subst hc1
    rw [filter_metric_ne h2 (fun h => d12 h.symm),
      filter_metric_ne h3 (fun h => d13 h.symm)]
    simpa using le_trans (List.length_filter_le _ _) l1
  · by_cases hc2 : n2 = fam
    · subst hc2
      rw [filter_metric_ne h1 hc1, filter_metric_ne h3 (fun h => d23 h.symm)]
      simpa using le_trans (List.length_filter_le _ _) l2
    · by_cases hc3 : n3 = fam
      · subst hc3
        rw [filter_metric_ne h1 hc1, filter_metric_ne h2 hc2]
        simpa using le_trans (List.length_filter_le _ _) l3
      · rw [filter_metric_ne h1 hc1, filter_metric_ne h2 hc2,
          filter_metric_ne h3 hc3]
        simp

/-- Claim C2: the evaluator emits at most one alert per family per
snapshot; an emitted alert carries the highest severity whose threshold
the usage of its family meets (inclusive comparison); when no threshold is
met for a family, no alert of that family is emitted. -/
theorem checkAlerts_spec (cfg : Config) (m : SystemMetrics) (now : ℚ) :
    (∀ fam : String,
      ((checkAlerts cfg m now).filter (fun a => decide (a.metric = fam))).length ≤ 1)
    ∧ (∀ a ∈ checkAlerts cfg m now,
        familyEnabled cfg a.metric = true
        ∧ highestSeverityMet (usageOf m a.metric) (familyThresholds cfg a.metric)
            = some a.severity)
    ∧ (∀ fam : String,
        highestSeverityMet (usageOf m fam) (familyThresholds cfg fam) = none →
        ∀ a ∈ checkAlerts cfg m now, ¬(a.metric = fam)) := by
  have hmem : ∀ a ∈ checkAlerts cfg m now,
      familyEnabled cfg a.metric = true
      ∧ highestSeverityMet (usageOf m a.metric) (familyThresholds cfg a.metric)
          = some a.severity := by
    intro a ha
    unfold checkAlerts at ha
    rcases List.mem_append.mp ha with h12 | h3
    · rcases List.mem_append.mp h12 with h1 | h2
      · obtain ⟨hm, he, hs⟩ := familyAlertBlock_mem h1
        rw [hm]
        exact ⟨he, hs⟩
      · obtain ⟨hm, he, hs⟩ := familyAlertBlock_mem h2
        rw [hm]
        exact ⟨he, hs⟩
    · obtain ⟨hm, he, hs⟩ := familyAlertBlock_mem h3
      rw [hm]
      exact ⟨he, hs⟩
  refine ⟨?_, hmem, ?_⟩
  · intro fam
    unfold checkAlerts
    exact three_blocks_len (fun a ha => (familyAlertBlock_mem ha).1)
      (fun a ha => (familyAlertBlock_mem ha).1)
      (fun a ha => (familyAlertBlock_mem ha).1)
      (familyAlertBlock_len _ _ _ _ _ _ _ _) (familyAlertBlock_len _ _ _ _ _ _ _ _)
      (familyAlertBlock_len _ _ _ _ _ _ _ _) (by decide) (by decide) (by decide)
  · intro fam hnone a ha hafam
    obtain ⟨_, hs⟩ := hmem a ha
    rw [hafam, hnone] at hs
    cases hs

/-- Witness for claim C2: the documented scenario of a cpu usage of 90
against thresholds 70, 85 and 95 yields one critical cpu alert, and an
`Infinity` memory usage (zero total with positive used bytes) yields the
emergency memory alert, since `Infinity` meets every defined threshold. -/
theorem checkAlerts_witness :
    ((checkAlerts defaultConfig (snapSimple 0 90 (.fin 50) 50) 7).filter
        (fun a => decide (a.metric = "cpu"))).length ≤ 1
    ∧ (familyEnabled defaultConfig "cpu" = true
        ∧ highestSeverityMet (usageOf (snapSimple 0 90 (.fin 50) 50) "cpu")
            (familyThresholds defaultConfig "cpu") = some Severity.critical)
    ∧ (familyEnabled defaultConfig "memory" = true
        ∧ highestSeverityMet (usageOf (snapSimple 0 10 .posInf 10) "memory")
            (familyThresholds defaultConfig "memory") = some Severity.emergency)
    ∧ (∀ a ∈ checkAlerts defaultConfig (snapSimple 0 90 (.fin 50) 50) 7,
        ¬(a.metric = "network")) :=
  ⟨(checkAlerts_spec defaultConfig (snapSimple 0 90 (.fin 50) 50) 7).1 "cpu",
   (checkAlerts_spec defaultConfig (snapSimple 0 90 (.fin 50) 50) 7).2.1
     (createAlert "cpu" (.fin 90) (some 85) .critical
       ("CPU usage is high: " ++ JSNum.render (.fin 90) ++ "%") 7) (by decide),
   (checkAlerts_spec defaultConfig (snapSimple 0 10 .posInf 10) 7).2.1
     (createAlert "memory" .posInf (some 95) .emergency
       ("Memory usage is critically high: " ++ JSNum.render .posInf ++ "%") 7)
     (by decide),
   fun a ha => (checkAlerts_spec defaultConfig (snapSimple 0 90 (.fin 50) 50) 7).2.2
     "network" (by decide) a ha⟩

/-- Claim C10: every alert emitted by the evaluator belongs to the cpu,
memory or disk family; the network family never produces an alert. -/
theorem checkAlerts_noNetwork_spec (cfg : Config) (m : SystemMetrics) (now : ℚ) :
    ∀ a ∈ checkAlerts cfg m now,
      (a.metric = "cpu" ∨ a.metric = "memory" ∨ a.metric = "disk")
      ∧ ¬(a.metric = "network") := by
  intro a ha
  unfold checkAlerts at ha
  rcases List.mem_append.mp ha with h12 | h3
  · rcases List.mem_append.mp h12 with h1 | h2
    · have hm := (familyAlertBlock_mem h1).1
      exact ⟨Or.inl hm, by rw [hm]; decide⟩
    · have hm := (familyAlertBlock_mem h2).1
      exact ⟨Or.inr (Or.inl hm), by rw [hm]; decide⟩
  · have hm := (familyAlertBlock_mem h3).1
    exact ⟨Or.inr (Or.inr hm), by rw [hm]; decide⟩

/-- Witness for claim C10 at a concrete emitted alert. -/
theorem checkAlerts_noNetwork_witness :
    ((createAlert "cpu" (.fin 90) (some 85) Severity.critical
        ("CPU usage is high: " ++ JSNum.render (.fin 90) ++ "%") 7).metric = "cpu"
      ∨ (createAlert "cpu" (.fin 90) (some 85) Severity.critical
          ("CPU usage is high: " ++ JSNum.render (.fin 90) ++ "%") 7).metric = "memory"
      ∨ (createAlert "cpu" (.fin 90) (some 85) Severity.critical
          ("CPU usage is high: " ++ JSNum.render (.fin 90) ++ "%") 7).metric = "disk")
    ∧ ¬((createAlert "cpu" (.fin 90) (some 85) Severity.critical
        ("CPU usage is high: " ++ JSNum.render (.fin 90) ++ "%") 7).metric = "network") :=
  checkAlerts_noNetwork_spec defaultConfig (snapSimple 0 90 (.fin 50) 50) 7
    (createAlert "cpu" (.fin 90) (some 85) Severity.critical
      ("CPU usage is high: " ++ JSNum.render (.fin 90) ++ "%") 7) (by decide)

/-- Counterexample to claim C1 as frozen: the memory usage derivation is
not guarded, so a zero memory total yields the non-finite JS division
result (NaN here, Infinity for a positive used amount) rather than the
usage value 0 that the claim asserts. -/
theorem usageDerivation_cx :
    (getMemoryMetrics defaultMemoryConfig
        (some { total := 0, used := 0, free := 0, available := 0 })).1.usage = .nan
    ∧ (getMemoryMetrics defaultMemoryConfig
        (some { total := 0, used := 5, free := 0, available := 0 })).1.usage = .posInf
    ∧ ¬((getMemoryMetrics defaultMemoryConfig
        (some { total := 0, used := 0, free := 0, available := 0 })).1.usage
          = .fin 0) := by
  decide

/-- Claim C1 (amended): for an enabled family, the memory usage equals
the rounded used/total ratio when the total is nonzero and is the
non-finite division result when the total is zero; aggregate and
per-device disk usages are guarded, equal the rounded ratio when the
total is positive and 0 otherwise; every ratio-derived usage lies in
[0,100] whenever the provider reports 0 <= used <= total. -/
theorem usageDerivation_spec (fc : FamilyConfig) (he : fc.enabled = true)
    (m : MemData) (fs : List FsEntry) :
    (m.total = 0 → (getMemoryMetrics fc (some m)).1.usage
        = (if 0 < m.used then .posInf else if m.used < 0 then .negInf else .nan))
    ∧ (¬(m.total = 0) →
        (getMemoryMetrics fc (some m)).1.usage
          = .fin (jsRound (m.used / m.total * 100)))
    ∧ (0 ≤ m.used → m.used ≤ m.total → 0 < m.total →
        ∀ q, (getMemoryMetrics fc (some m)).1.usage = .fin q → 0 ≤ q ∧ q ≤ 100)
    ∧ (0 < (fs.map (fun f => f.size)).sum →
        (getDiskMetrics fc (some fs)).1.usage
          = jsRound ((fs.map (fun f => f.used)).sum
              / (fs.map (fun f => f.size)).sum * 100))
    ∧ (¬(0 < (fs.map (fun f => f.size)).sum) →
        (getDiskMetrics fc (some fs)).1.usage = 0)
    ∧ ((∀ f ∈ fs, 0 ≤ f.used ∧ f.used ≤ f.size) →
        0 ≤ (getDiskMetrics fc (some fs)).1.usage
        ∧ (getDiskMetrics fc (some fs)).1.usage ≤ 100)
    ∧ ((getDiskMetrics fc (some fs)).1.devices.map (fun d => d.usage)
        = fs.map (fun f =>
            if (0:ℚ) < f.size then jsRound (f.used / f.size * 100) else 0))
    ∧ ((∀ f ∈ fs, 0 ≤ f.used ∧ f.used ≤ f.size) →
        ∀ d ∈ (getDiskMetrics fc (some fs)).1.devices,
          0 ≤ d.usage ∧ d.usage ≤ 100) := by
  refine ⟨?_, ?_, ?_, ?_, ?_, ?_, ?_, ?_⟩
  · intro h0
    simp [getMemoryMetrics, he, h0]
  · intro h0
    simp [getMemoryMetrics, he, h0]
  · intro hu0 hut h0 q hq
    simp [getMemoryMetrics, he, ne_of_gt h0] at hq
    exact hq ▸ ratioRound_bounds hu0 hut h0
  · intro hpos
    simp [getDiskMetrics, he, hpos]
  · intro hneg
    simp [getDiskMetrics, he, hneg]
  · intro hub
    have hu0 : 0 ≤ (fs.map (fun f => f.used)).sum := by
      apply List.sum_nonneg
      intro x hx
      obtain ⟨f, hf, rfl⟩ := List.mem_map.mp hx
      exact (hub f hf).1
    have hut : (fs.map (fun f => f.used)).sum ≤ (fs.map (fun f => f.size)).sum :=
      List.sum_le_sum (fun f hf => (hub f hf).2)
    by_cases hpos : 0 < (fs.map (fun f => f.size)).sum
    · have h1 : (getDiskMetrics fc (some fs)).1.usage
          = jsRound ((fs.map (fun f => f.used)).sum
              / (fs.map (fun f => f.size)).sum * 100) := by
        simp [getDiskMetrics, he, hpos]
      rw [h1]
      exact ratioRound_bounds hu0 hut hpos
    · have h1 : (getDiskMetrics fc (some fs)).1.usage = 0 := by
        simp [getDiskMetrics, he, hpos]
      rw [h1]
      norm_num
  · simp [getDiskMetrics, he, List.map_map]
  · intro hub d hd
    have hdev : (getDiskMetrics fc (some fs)).1.devices
        = fs.map (fun f =>
            { name := f.mount,
              usage := if (0:ℚ) < f.size then jsRound (f.used / f.size * 100) else 0,
              total := f.size, used := f.used, free := f.available }) := by
      simp [getDiskMetrics, he]
    rw [hdev, List.mem_map] at hd
    obtain ⟨f, hf, rfl⟩ := hd
    by_cases hpos : (0:ℚ) < f.size
    · simp only [hpos, if_true]
      exact ratioRound_bounds (hub f hf).1 (hub f hf).2 hpos
    · simp only [hpos, if_false]
      norm_num

/-- Witness for the amended claim C1 at the documented concrete inputs:
the 4 GiB of 8 GiB memory reading and a single filesystem entry. -/
theorem usageDerivation_witness :
    (getMemoryMetrics defaultMemoryConfig
        (some { total := 8589934592, used := 4294967296, free := 4294967296,
                available := 4294967296 })).1.usage
      = .fin (jsRound ((4294967296:ℚ) / 8589934592 * 100))
    ∧ (0 ≤ jsRound ((4294967296:ℚ) / 8589934592 * 100)
        ∧ jsRound ((4294967296:ℚ) / 8589934592 * 100) ≤ 100)
    ∧ (getMemoryMetrics defaultMemoryConfig
        (some { total := 0, used := 0, free := 0, available := 0 })).1.usage = .nan
    ∧ (0 ≤ (getDiskMetrics defaultDiskConfig
          (some [{ mount := "/", size := 100000000000, used := 50000000000,
                   available := 50000000000 }])).1.usage
        ∧ (getDiskMetrics defaultDiskConfig
          (some [{ mount := "/", size := 100000000000, used := 50000000000,
                   available := 50000000000 }])).1.usage ≤ 100)
    ∧ (∀ d ∈ (getDiskMetrics defaultDiskConfig
          (some [{ mount := "/", size := 100000000000, used := 50000000000,
                   available := 50000000000 }])).1.devices,
        0 ≤ d.usage ∧ d.usage ≤ 100) := by
  have h1 := usageDerivation_spec defaultMemoryConfig (by decide)
    { total := 8589934592, used := 4294967296, free := 4294967296,
      available := 4294967296 } []
  have h0 := usageDerivation_spec defaultMemoryConfig (by decide)
    { total := 0, used := 0, free := 0, available := 0 } []
  have hd := usageDerivation_spec defaultDiskConfig (by decide)
    { total := 1, used := 0, free := 0, available := 0 }
    [{ mount := "/", size := 100000000000, used := 50000000000,
       available := 50000000000 }]
  refine ⟨h1.2.1 (by decide), ?_, by rw [h0.1 (by decide)]; decide,
    hd.2.2.2.2.2.1 (by decide), hd.2.2.2.2.2.2.2 (by decide)⟩
  exact h1.2.2.1 (by decide) (by decide) (by decide) _ (h1.2.1 (by decide))

/-- Counterexample to claim C4 as frozen: with every retention configured
as 0 days, the claimed cutoff is the current instant, yet the store keeps
a snapshot one millisecond old, because the source replaces a falsy
retention value by the default 7 through the `||` operator. -/
theorem cleanup_cx :
    (snapSimple 999999999999 10 (.fin 10) 10).timestamp
      ≤ 1000000000000 - 0 * msPerDay
    ∧ (snapSimple 999999999999 10 (.fin 10) 10)
        ∈ (cleanupOldMetrics zeroRetentionConfig 1000000000000
            [snapSimple 999999999999 10 (.fin 10) 10] []).1 := by
  constructor
  · norm_num [snapSimple]
  · simp [cleanupOldMetrics, zeroRetentionConfig, maxRetention, jsOrNum,
      msPerDay, defaultConfig, defaultCpuConfig, defaultMemoryConfig,
      defaultDiskConfig, defaultNetworkConfig, List.mem_filter, snapSimple]
    norm_num

/-- Claim C4 (amended): the eviction after every append removes exactly
the snapshots with timestamp at most `now` minus the maximum across the
four families of the retention in days (a retention of 0 or undefined
falling back to the default 7 by the `||` operator), keeping the stored
order, and independently removes exactly the alerts with timestamp at
most `now` minus 30 days. -/
theorem cleanup_spec (cfg : Config) (now : ℚ) (metrics : List SystemMetrics)
    (alerts : List Alert) :
    ((cleanupOldMetrics cfg now metrics alerts).1.Sublist metrics)
    ∧ (∀ m, m ∈ (cleanupOldMetrics cfg now metrics alerts).1 ↔
        (m ∈ metrics ∧ now - maxRetention cfg * msPerDay < m.timestamp))
    ∧ ((cleanupOldMetrics cfg now metrics alerts).2.Sublist alerts)
    ∧ (∀ a, a ∈ (cleanupOldMetrics cfg now metrics alerts).2 ↔
        (a ∈ alerts ∧ now - 30 * msPerDay < a.timestamp)) := by
  refine ⟨List.filter_sublist _, fun m => ?_, List.filter_sublist _, fun a => ?_⟩ <;>
    simp [cleanupOldMetrics, List.mem_filter]

theorem isEmpty_false_of_ne_nil {l : List α} (h : ¬(l = [])) :
    l.isEmpty = false := by
  cases l with
  | nil => exact absurd rfl h
  | cons x xs => rfl

theorem memUsage_jsMean (metrics : List SystemMetrics)
    (hne : ¬(metrics = []))
    (hfin : ∀ m ∈ metrics, m.memory.usage.isFin = true) (n : ℕ) (hn : 0 < n) :
    jsMean ((lastN n metrics).map fun m => m.memory.usage)
      = .fin (mean ((lastN n metrics).map fun m => m.memory.usage.toQ)) := by
  have hsome : ∀ x ∈ (lastN n metrics).map (fun m => m.memory.usage),
      x.isFin = true := by
    intro x hx
    obtain ⟨mm, hm, rfl⟩ := List.mem_map.mp hx
    exact hfin mm (mem_lastN hm)
  have hne2 : ¬((lastN n metrics).map (fun m => m.memory.usage) = []) := by
    simpa using lastN_ne_nil hne hn
  rw [jsMean_of_fin hsome hne2]
  simp only [List.map_map]
  rfl

theorem calcOverallHealth_char (metrics : List SystemMetrics)
    (hne : ¬(metrics = []))
    (hfin : ∀ m ∈ metrics, m.memory.usage.isFin = true) :
    calculateOverallHealth metrics =
      (if 90 ≤ mean ((lastN 5 metrics).map fun m => m.cpu.usage)
          ∨ 95 ≤ mean ((lastN 5 metrics).map fun m => m.memory.usage.toQ)
          ∨ 95 ≤ mean ((lastN 5 metrics).map fun m => m.disk.usage)
       then .unhealthy
       else if 80 ≤ mean ((lastN 5 metrics).map fun m => m.cpu.usage)
          ∨ 85 ≤ mean ((lastN 5 metrics).map fun m => m.memory.usage.toQ)
          ∨ 85 ≤ mean ((lastN 5 metrics).map fun m => m.disk.usage)
       then .degraded
       else .healthy) := by
  have hRE : (lastN 5 metrics).isEmpty = false :=
    isEmpty_false_of_ne_nil (lastN_ne_nil hne (by norm_num))
  simp only [calculateOverallHealth, hRE, Bool.false_eq_true, if_false,
    memUsage_jsMean metrics hne hfin 5 (by norm_num), jsGE, decide_eq_true_eq]

theorem calcHealthScore_char (metrics : List SystemMetrics)
    (hne : ¬(metrics = []))
    (hfin : ∀ m ∈ metrics, m.memory.usage.isFin = true) :
    calculateHealthScore metrics
      = .fin (jsRound
          ((max 0 (100 - mean ((lastN 5 metrics).map fun m => m.cpu.usage))
            + max 0 (100 - mean ((lastN 5 metrics).map fun m => m.memory.usage.toQ))
            + max 0 (100 - mean ((lastN 5 metrics).map fun m => m.disk.usage))) / 3)) := by
  have hRE : (lastN 5 metrics).isEmpty = false :=
    isEmpty_false_of_ne_nil (lastN_ne_nil hne (by norm_num))
  simp only [calculateHealthScore, hRE, Bool.false_eq_true, if_false,
    memUsage_jsMean metrics hne hfin 5 (by norm_num), JSNum.subFrom, JSNum.max0,
    JSNum.add, JSNum.divNat, JSNum.round]
  norm_num

theorem score_bounds {a b d : ℚ} (hA : 0 ≤ a) (hB : 0 ≤ b) (hD : 0 ≤ d) :
    0 ≤ jsRound ((max 0 (100 - a) + max 0 (100 - b) + max 0 (100 - d)) / 3)
    ∧ jsRound ((max 0 (100 - a) + max 0 (100 - b) + max 0 (100 - d)) / 3) ≤ 100 := by
  have h1 : (0:ℚ) ≤ max 0 (100 - a) := le_max_left _ _
  have h2 : (0:ℚ) ≤ max 0 (100 - b) := le_max_left _ _
  have h3 : (0:ℚ) ≤ max 0 (100 - d) := le_max_left _ _
  have h4 : max 0 (100 - a) ≤ (100:ℚ) := max_le (by norm_num) (by linarith)
  have h5 : max 0 (100 - b) ≤ (100:ℚ) := max_le (by norm_num) (by linarith)
  have h6 : max 0 (100 - d) ≤ (100:ℚ) := max_le (by norm_num) (by linarith)
  constructor
  · exact jsRound_nonneg (by linarith)
  · exact jsRound_le_hundred (by linarith)

/-- Claim C5: the analyzer yields none exactly on an empty store; on a
non-empty store its summary health is unhealthy, degraded or healthy by
the documented 90/95/95 and 80/85/85 average thresholds over the
five-snapshot window, and its score is the rounded mean of the three
family scores `max(0, 100 - avg)`, lying in [0,100]; an empty window
defaults to healthy with score 100. -/
theorem analyzer_spec (metrics : List SystemMetrics)
    (hne : ¬(metrics = []))
    (hfin : ∀ m ∈ metrics, m.memory.usage.isFin = true)
    (hnn : ∀ m ∈ metrics,
      0 ≤ m.cpu.usage ∧ 0 ≤ m.memory.usage.toQ ∧ 0 ≤ m.disk.usage) :
    (getAnalysis [] = none)
    ∧ ((getAnalysis metrics).map (fun a => a.summary.overallHealth)
        = some (calculateOverallHealth metrics))
    ∧ ((getAnalysis metrics).map (fun a => a.summary.score)
        = some (calculateHealthScore metrics))
    ∧ (calculateOverallHealth metrics = .unhealthy ↔
        (90 ≤ mean ((lastN 5 metrics).map fun m => m.cpu.usage)
         ∨ 95 ≤ mean ((lastN 5 metrics).map fun m => m.memory.usage.toQ)
         ∨ 95 ≤ mean ((lastN 5 metrics).map fun m => m.disk.usage)))
    ∧ (calculateOverallHealth metrics = .degraded ↔
        (¬(90 ≤ mean ((lastN 5 metrics).map fun m => m.cpu.usage)
           ∨ 95 ≤ mean ((lastN 5 metrics).map fun m => m.memory.usage.toQ)
           ∨ 95 ≤ mean ((lastN 5 metrics).map fun m => m.disk.usage))
         ∧ (80 ≤ mean ((lastN 5 metrics).map fun m => m.cpu.usage)
            ∨ 85 ≤ mean ((lastN 5 metrics).map fun m => m.memory.usage.toQ)
            ∨ 85 ≤ mean ((lastN 5 metrics).map fun m => m.disk.usage))))
    ∧ (calculateOverallHealth metrics = .healthy ↔
        ¬(80 ≤ mean ((lastN 5 metrics).map fun m => m.cpu.usage)
          ∨ 85 ≤ mean ((lastN 5 metrics).map fun m => m.memory.usage.toQ)
          ∨ 85 ≤ mean ((lastN 5 metrics).map fun m => m.disk.usage)))
    ∧ (calculateHealthScore metrics
        = .fin (jsRound
            ((max 0 (100 - mean ((lastN 5 metrics).map fun m => m.cpu.usage))
              + max 0 (100 - mean ((lastN 5 metrics).map fun m => m.memory.usage.toQ))
              + max 0 (100 - mean ((lastN 5 metrics).map fun m => m.disk.usage))) / 3)))
    ∧ (∀ q, calculateHealthScore metrics = .fin q → 0 ≤ q ∧ q ≤ 100)
    ∧ calculateOverallHealth [] = .healthy
    ∧ calculateHealthScore [] = .fin 100 := by
  have hE : metrics.isEmpty = false := isEmpty_false_of_ne_nil hne
  set A := mean ((lastN 5 metrics).map fun m => m.cpu.usage) with hAdef
  set B := mean ((lastN 5 metrics).map fun m => m.memory.usage.toQ) with hBdef
  set D := mean ((lastN 5 metrics).map fun m => m.disk.usage) with hDdef
  have hA : 0 ≤ A := by
    rw [hAdef]
    apply mean_nonneg
    intro x hx
    obtain ⟨mm, hm, rfl⟩ := List.mem_map.mp hx
    exact (hnn mm (mem_lastN hm)).1
  have hB : 0 ≤ B := by
    rw [hBdef]
    apply mean_nonneg
    intro x hx
    obtain ⟨mm, hm, rfl⟩ := List.mem_map.mp hx
    exact (hnn mm (mem_lastN hm)).2.1
  have hD : 0 ≤ D := by
    rw [hDdef]
    apply mean_nonneg
    intro x hx
    obtain ⟨mm, hm, rfl⟩ := List.mem_map.mp hx
    exact (hnn mm (mem_lastN hm)).2.2
  have hchar := calcOverallHealth_char metrics hne hfin
  have hscore := calcHealthScore_char metrics hne hfin
  rw [← hAdef, ← hBdef, ← hDdef] at hchar hscore
  have hImp : (90 ≤ A ∨ 95 ≤ B ∨ 95 ≤ D) → (80 ≤ A ∨ 85 ≤ B ∨ 85 ≤ D) := by
    rintro (h | h | h)
    · exact Or.inl (by linarith)
    · exact Or.inr (Or.inl (by linarith))
    · exact Or.inr (Or.inr (by linarith))
  refine ⟨by simp [getAnalysis], by simp [getAnalysis, hE],
    by simp [getAnalysis, hE], ?_, ?_, ?_, hscore, ?_,
    by simp [calculateOverallHealth, lastN],
    by simp [calculateHealthScore, lastN]⟩
  · rw [hchar]
    by_cases hU : 90 ≤ A ∨ 95 ≤ B ∨ 95 ≤ D
    · simp [hU]
    · by_cases hDg : 80 ≤ A ∨ 85 ≤ B ∨ 85 ≤ D <;> simp [hU, hDg]
  · rw [hchar]
    by_cases hU : 90 ≤ A ∨ 95 ≤ B ∨ 95 ≤ D
    · simp [hU, hImp hU]
    · by_cases hDg : 80 ≤ A ∨ 85 ≤ B ∨ 85 ≤ D <;> simp [hU, hDg]
  · rw [hchar]
    by_cases hU : 90 ≤ A ∨ 95 ≤ B ∨ 95 ≤ D
    · simp [hU, hImp hU]
    · by_cases hDg : 80 ≤ A ∨ 85 ≤ B ∨ 85 ≤ D <;> simp [hU, hDg]
  · intro q hq
    rw [hscore] at hq
    simp only [JSNum.fin.injEq] at hq
    rw [← hq]
    exact score_bounds hA hB hD

/-- Witness for claim C5 at a one-snapshot store. -/
theorem analyzer_witness :
    (getAnalysis [] = none)
    ∧ ((getAnalysis [snapSimple 0 10 (.fin 10) 10]).map
        (fun a => a.summary.overallHealth)
        = some (calculateOverallHealth [snapSimple 0 10 (.fin 10) 10]))
    ∧ (∀ q, calculateHealthScore [snapSimple 0 10 (.fin 10) 10] = .fin q →
        0 ≤ q ∧ q ≤ 100)
    ∧ calculateOverallHealth [] = .healthy
    ∧ calculateHealthScore [] = .fin 100 := by
  have h := analyzer_spec [snapSimple 0 10 (.fin 10) 10]
    (by decide) (by decide) (by decide)
  exact ⟨h.1, h.2.1, h.2.2.2.2.2.2.2.1, h.2.2.2.2.2.2.2.2.1, h.2.2.2.2.2.2.2.2.2⟩

theorem calculateTrend_char (vs : List ℚ) (h : 2 ≤ vs.length) :
    calculateTrend (vs.map .fin) =
      (if |mean (vs.drop (vs.length / 2)) - mean (vs.take (vs.length / 2))| < 5
       then .stable
       else if 0 < mean (vs.drop (vs.length / 2)) - mean (vs.take (vs.length / 2))
       then .increasing
       else .decreasing) := by
  have htake : ¬(vs.take (vs.length / 2) = []) := by
    intro hc
    have hlen := congrArg List.length hc
    rw [List.length_take] at hlen
    simp only [List.length_nil] at hlen
    omega
  have hdrop : ¬(vs.drop (vs.length / 2) = []) := by
    intro hc
    have hlen := congrArg List.length hc
    rw [List.length_drop] at hlen
    simp only [List.length_nil] at hlen
    omega
  unfold calculateTrend
  rw [if_neg (by simp only [List.length_map]; omega)]
  simp only [List.length_map, ← List.map_take, ← List.map_drop,
    jsMean_map_fin _ htake, jsMean_map_fin _ hdrop, JSNum.sub, JSNum.abs,
    JSNum.lt, decide_eq_true_eq]

/-- Claim C6: the trend splits the value list at the floor midpoint,
compares the two half means, yields stable when the absolute difference is
below 5 and otherwise follows the sign of the difference; fewer than two
points always yield stable. -/
theorem trend_spec (vs : List ℚ) :
    (vs.length < 2 → calculateTrend (vs.map .fin) = .stable)
    ∧ (2 ≤ vs.length →
        ((calculateTrend (vs.map .fin) = .stable ↔
            |mean (vs.drop (vs.length / 2)) - mean (vs.take (vs.length / 2))| < 5)
         ∧ (calculateTrend (vs.map .fin) = .increasing ↔
            (¬(|mean (vs.drop (vs.length / 2)) - mean (vs.take (vs.length / 2))| < 5)
             ∧ 0 < mean (vs.drop (vs.length / 2)) - mean (vs.take (vs.length / 2))))
         ∧ (calculateTrend (vs.map .fin) = .decreasing ↔
            (¬(|mean (vs.drop (vs.length / 2)) - mean (vs.take (vs.length / 2))| < 5)
             ∧ mean (vs.drop (vs.length / 2)) - mean (vs.take (vs.length / 2)) < 0)))) := by
  constructor
  · intro h
    simp [calculateTrend, h]
  · intro h
    rw [calculateTrend_char vs h]
    set d := mean (vs.drop (vs.length / 2)) - mean (vs.take (vs.length / 2)) with hd
    by_cases h5 : |d| < 5
    · simp [h5]
    · by_cases hp : 0 < d
      · have hnlt : ¬(d < 0) := by linarith
        simp [h5, hp, hnlt]
      · have hne0 : ¬(d = 0) := by
          intro h0
          exact h5 (by rw [h0]; norm_num)
        have hd0 : d < 0 := lt_of_le_of_ne (not_lt.mp hp) hne0
        simp [h5, hp, hd0]

/-- Witness for claim C6 on concrete short and long value lists. -/
theorem trend_witness :
    calculateTrend ([(7:ℚ)].map .fin) = .stable
    ∧ (calculateTrend ([(0:ℚ), 0, 10, 10].map .fin) = .increasing ↔
        (¬(|mean ([(0:ℚ), 0, 10, 10].drop ([(0:ℚ), 0, 10, 10].length / 2))
            - mean ([(0:ℚ), 0, 10, 10].take ([(0:ℚ), 0, 10, 10].length / 2))| < 5)
         ∧ 0 < mean ([(0:ℚ), 0, 10, 10].drop ([(0:ℚ), 0, 10, 10].length / 2))
            - mean ([(0:ℚ), 0, 10, 10].take ([(0:ℚ), 0, 10, 10].length / 2)))) :=
  ⟨(trend_spec [(7:ℚ)]).1 (by decide),
   ((trend_spec [(0:ℚ), 0, 10, 10]).2 (by decide)).2.1⟩

/-- Claim C7: a disabled family contributes its zero-value record with no
error; an enabled family whose provider call fails contributes its
zero-value record together with an error event; and a running tick always
surfaces the assembled snapshot and every per-family error, so one family
never aborts the others. -/
theorem collect_resilience_spec (fc : FamilyConfig)
    (load : Option CpuLoadData) (speed temp : Option ℚ)
    (mem : Option MemData) (fsS : Option (List FsEntry))
    (net : Option (List NetStatEntry))
    (s : MonitorState) (cfg : Config) (p : Providers) (now : ℚ) :
    (fc.enabled = false →
      getCpuMetrics fc load speed temp = (zeroCpu, [])
      ∧ getMemoryMetrics fc mem = (zeroMemory, [])
      ∧ getDiskMetrics fc fsS = (zeroDisk, [])
      ∧ getNetworkMetrics fc net = (zeroNetwork, []))
    ∧ (fc.enabled = true →
      getCpuMetrics fc none speed temp = (zeroCpu, ["Failed to get CPU metrics"])
      ∧ getCpuMetrics fc load none temp = (zeroCpu, ["Failed to get CPU metrics"])
      ∧ getMemoryMetrics fc none = (zeroMemory, ["Failed to get memory metrics"])
      ∧ getDiskMetrics fc none = (zeroDisk, ["Failed to get disk metrics"])
      ∧ getNetworkMetrics fc none = (zeroNetwork, ["Failed to get network metrics"]))
    ∧ (s.isRunning = true →
      (Event.metricsCollected
          { timestamp := now,
            cpu := (getCpuMetrics cfg.metrics.cpu p.cpuLoad p.cpuSpeed p.cpuTemp).1,
            memory := (getMemoryMetrics cfg.metrics.memory p.mem).1,
            disk := (getDiskMetrics cfg.metrics.disk p.fsSize).1,
            network := (getNetworkMetrics cfg.metrics.network p.netStats).1 }
        ∈ (collectMetrics s cfg p now).2)
      ∧ (∀ msg, msg ∈ (getCpuMetrics cfg.metrics.cpu p.cpuLoad p.cpuSpeed p.cpuTemp).2
            ++ (getMemoryMetrics cfg.metrics.memory p.mem).2
            ++ (getDiskMetrics cfg.metrics.disk p.fsSize).2
            ++ (getNetworkMetrics cfg.metrics.network p.netStats).2 →
          Event.errorEv msg ∈ (collectMetrics s cfg p now).2)) := by
  refine ⟨?_, ?_, ?_⟩
  · intro h
    refine ⟨?_, ?_, ?_, ?_⟩ <;> simp [getCpuMetrics, getMemoryMetrics,
      getDiskMetrics, getNetworkMetrics, h]
  · intro h
    refine ⟨?_, ?_, ?_, ?_, ?_⟩
    · simp [getCpuMetrics, h]
    · cases load <;> simp [getCpuMetrics, h]
    · simp [getMemoryMetrics, h]
    · simp [getDiskMetrics, h]
    · simp [getNetworkMetrics, h]
  · intro h
    constructor
    · simp [collectMetrics, h]
    · intro msg hmsg
      simp only [List.mem_append] at hmsg
      simp only [collectMetrics, h, Bool.not_true, Bool.false_eq_true,
        if_false, List.mem_append, List.mem_map, List.mem_singleton]
      exact Or.inl (Or.inl ⟨msg, hmsg, rfl⟩)

/-- Witness for claim C7 at concrete configurations, provider outcomes
and a running state. -/
theorem collect_resilience_witness :
    getCpuMetrics { defaultCpuConfig with enabled := false } none none none
      = (zeroCpu, [])
    ∧ getMemoryMetrics defaultMemoryConfig none
        = (zeroMemory, ["Failed to get memory metrics"])
    ∧ Event.errorEv "Failed to get CPU metrics"
        ∈ (collectMetrics { initialState with isRunning := true } defaultConfig
            { cpuLoad := none, cpuSpeed := none, cpuTemp := none, mem := none,
              fsSize := none, netStats := none } 3).2
    ∧ Event.metricsCollected
        { timestamp := 3,
          cpu := (getCpuMetrics defaultConfig.metrics.cpu none none none).1,
          memory := (getMemoryMetrics defaultConfig.metrics.memory none).1,
          disk := (getDiskMetrics defaultConfig.metrics.disk none).1,
          network := (getNetworkMetrics defaultConfig.metrics.network none).1 }
        ∈ (collectMetrics { initialState with isRunning := true } defaultConfig
            { cpuLoad := none, cpuSpeed := none, cpuTemp := none, mem := none,
              fsSize := none, netStats := none } 3).2 := by
  have hOff := collect_resilience_spec { defaultCpuConfig with enabled := false }
    none none none none none none initialState defaultConfig
    { cpuLoad := none, cpuSpeed := none, cpuTemp := none, mem := none,
      fsSize := none, netStats := none } 3
  have hOn := collect_resilience_spec defaultMemoryConfig none none none
    none none none initialState defaultConfig
    { cpuLoad := none, cpuSpeed := none, cpuTemp := none, mem := none,
      fsSize := none, netStats := none } 3
  have hRun := collect_resilience_spec defaultCpuConfig none none none
    none none none { initialState with isRunning := true } defaultConfig
    { cpuLoad := none, cpuSpeed := none, cpuTemp := none, mem := none,
      fsSize := none, netStats := none } 3
  exact ⟨(hOff.1 (by decide)).1, (hOn.2.1 (by decide)).2.2.1,
    (hRun.2.2 (by decide)).2 "Failed to get CPU metrics" (by decide),
    (hRun.2.2 (by decide)).1⟩

/-- Witness for claim C9 at the freshly constructed monitor state. -/
theorem healthCheck_beforeStart_witness :
    (healthCheck initialState 5).status = .healthy
    ∧ (healthCheck initialState 5).components.systemMonitor = .unhealthy
    ∧ (healthCheck initialState 5).components.cpu = .healthy
    ∧ (healthCheck initialState 5).components.memory = .healthy
    ∧ (healthCheck initialState 5).components.disk = .healthy
    ∧ (healthCheck initialState 5).components.network = .healthy :=
  healthCheck_beforeStart_spec initialState 5 (by decide) (by decide)

end SysMon
